import Mathlib

/-!
Shallow embedding of the FutureTrading signal pipeline (src/bot.py):
technical indicator columns, the confluence scorer, risk sizing,
trade parameters, and the analyze orchestration, together with proofs
about the behaviour the design document ascribes to them.

Numbers are modelled by exact rationals.  Pandas NaN is modelled by
Option: a rolling window that is incomplete, or that covers a NaN,
yields none.  Python exceptions raised by positional indexing are
modelled by an Except result.
-/

set_option maxRecDepth 100000

/-- One OHLCV candle row of the raw input dataframe. -/
structure Bar where
  openv : ℚ
  high : ℚ
  low : ℚ
  close : ℚ
  volume : ℚ
deriving DecidableEq

/-- A fully defined (post-dropna) row of the indicator-enriched dataframe. -/
structure Row where
  openv : ℚ
  high : ℚ
  low : ℚ
  close : ℚ
  volume : ℚ
  SMA : ℚ
  STD : ℚ
  UpperBand : ℚ
  LowerBand : ℚ
  BandWidth : ℚ
  RSI : ℚ
  MACD : ℚ
  Signal : ℚ
  MACD_Hist : ℚ
  ATR : ℚ
  OBV : ℚ
  VolAvg : ℚ
  VolSpike : Bool
deriving DecidableEq

/-- Trade signal values (the strings 'long' / 'short' / 'no trade' in the source). -/
inductive Sig
  | long
  | short
  | noTrade
deriving DecidableEq

/-- Python exceptions the pipeline can raise: out-of-bounds positional indexing
(df.iloc on a frame that is too short). -/
inductive PyError
  | indexError
deriving DecidableEq

deriving instance DecidableEq for Except

/-- Mean of a list of rationals (pandas Series.mean over a complete window). -/
def meanQ (l : List ℚ) : ℚ := l.sum / (l.length : ℚ)

/-- Variance with denominator n - 1, the pandas Series.rolling(w).std() default
(ddof = 1), before the square root. -/
def sampleVar (l : List ℚ) : ℚ :=
  (l.map (fun x => (x - meanQ l) ^ 2)).sum / ((l.length : ℚ) - 1)

/-- Variance with denominator n.  This definition follows the specification's
wording (rolling population standard deviation, squared); it exists to be
compared with sampleVar, which is what the code computes. -/
def popVar (l : List ℚ) : ℚ :=
  (l.map (fun x => (x - meanQ l) ^ 2)).sum / (l.length : ℚ)

/-- Combine two optional values (pandas NaN propagation through arithmetic). -/
def omap2 (f : ℚ → ℚ → ℚ) : Option ℚ → Option ℚ → Option ℚ
  | some a, some b => some (f a b)
  | _, _ => none

/-- Value at index i of a rolling-window aggregation: pandas Series.rolling(w)
with the default min_periods = w, so an incomplete window or a NaN inside the
window yields NaN. -/
def rollingAt (w : ℕ) (f : List ℚ → ℚ) (xs : List (Option ℚ)) (i : ℕ) : Option ℚ :=
  let win := ((xs.take (i + 1)).drop (i + 1 - w)).filterMap id
  if w ≤ i + 1 ∧ win.length = w then some (f win) else none

/-- Series.diff(): NaN at the first position, successive differences after. -/
def diffL (xs : List ℚ) : List (Option ℚ) :=
  match xs with
  | [] => []
  | _ :: _ => none :: List.zipWith (fun a b => some (b - a)) xs xs.tail

/-- Tail of the exponential moving average recurrence y = a*x + (1-a)*prev. -/
def ewmGo (a prev : ℚ) : List ℚ → List ℚ
  | [] => []
  | x :: xs => (a * x + (1 - a) * prev) :: ewmGo a (a * x + (1 - a) * prev) xs

/-- Series.ewm(span, adjust=False).mean() with a = 2/(span+1); the first output
equals the first input. -/
def ewmL (a : ℚ) : List ℚ → List ℚ
  | [] => []
  | x :: xs => x :: ewmGo a x xs

def closeCol (bars : List Bar) : List ℚ := bars.map Bar.close

def highCol (bars : List Bar) : List ℚ := bars.map Bar.high

def lowCol (bars : List Bar) : List ℚ := bars.map Bar.low

def volCol (bars : List Bar) : List ℚ := bars.map Bar.volume

/-- df['SMA']: 20-bar rolling mean of the close (bollinger_bands). -/
def smaAt (cs : List ℚ) (i : ℕ) : Option ℚ := rollingAt 20 meanQ (cs.map some) i

/-- Floor square root on naturals by downward scan; structurally recursive so
that the kernel can evaluate it. -/
def natSqrtGo (n : ℕ) : ℕ → ℕ
  | 0 => 0
  | k + 1 => if (k + 1) * (k + 1) ≤ n then k + 1 else natSqrtGo n k

/-- Floor square root on naturals. -/
def natSqrt (n : ℕ) : ℕ := natSqrtGo n n

/-- Rational square root, exact on squares: square root of the numerator over
square root of the denominator (the same shape as Mathlib's Rat.sqrt, but
kernel-reducible). -/
def ratSqrt (q : ℚ) : ℚ := mkRat (natSqrt q.num.toNat) (natSqrt q.den)

/-- df['STD']: 20-bar rolling standard deviation of the close, pandas default
ddof = 1 (bollinger_bands).  The floating-point square root is modelled by the
exact rational square root; every concrete window appearing in a theorem below
has a perfect-square variance, where ratSqrt coincides with the float
computation. -/
def stdAt (cs : List ℚ) (i : ℕ) : Option ℚ :=
  rollingAt 20 (fun w => ratSqrt (sampleVar w)) (cs.map some) i

/-- Upper band from mean and standard deviation: SMA + 2*STD. -/
def upperBandOf (m s : ℚ) : ℚ := m + 2 * s

/-- Lower band from mean and standard deviation: SMA - 2*STD. -/
def lowerBandOf (m s : ℚ) : ℚ := m - 2 * s

/-- Band width from the two bands and the close: (upper - lower) / close * 100. -/
def bandWidthOf (u l c : ℚ) : ℚ := (u - l) / c * 100

/-- df['UpperBand'] (bollinger_bands). -/
def upperAt (cs : List ℚ) (i : ℕ) : Option ℚ := omap2 upperBandOf (smaAt cs i) (stdAt cs i)

/-- df['LowerBand'] (bollinger_bands). -/
def lowerAt (cs : List ℚ) (i : ℕ) : Option ℚ := omap2 lowerBandOf (smaAt cs i) (stdAt cs i)

/-- df['BandWidth'] = (UpperBand - LowerBand) / close * 100 (bollinger_bands). -/
def bwAt (cs : List ℚ) (i : ℕ) : Option ℚ :=
  omap2 (fun u l => bandWidthOf u l (cs.getD i 0)) (upperAt cs i) (lowerAt cs i)

/-- delta.clip(lower=0): positive part of the close differences (rsi). -/
def gainL (cs : List ℚ) : List (Option ℚ) := (diffL cs).map (Option.map fun d => max d 0)

/-- -delta.clip(upper=0): magnitude of the negative part of the differences (rsi). -/
def lossL (cs : List ℚ) : List (Option ℚ) := (diffL cs).map (Option.map fun d => max (-d) 0)

/-- avg_gain: 14-bar rolling mean of the gains (rsi). -/
def avgGainAt (cs : List ℚ) (i : ℕ) : Option ℚ := rollingAt 14 meanQ (gainL cs) i

/-- avg_loss: 14-bar rolling mean of the losses (rsi). -/
def avgLossAt (cs : List ℚ) (i : ℕ) : Option ℚ := rollingAt 14 meanQ (lossL cs) i

/-- The 1e-10 epsilon added to the RSI denominator (rsi). -/
def epsQ : ℚ := 1 / 10 ^ 10

/-- rs = avg_gain / (avg_loss + 1e-10) (rsi). -/
def rsAt (cs : List ℚ) (i : ℕ) : Option ℚ :=
  omap2 (fun g l => g / (l + epsQ)) (avgGainAt cs i) (avgLossAt cs i)

/-- df['RSI'] = 100 - 100 / (1 + rs) (rsi). -/
def rsiAt (cs : List ℚ) (i : ℕ) : Option ℚ :=
  (rsAt cs i).map fun rs => 100 - 100 / (1 + rs)

/-- df['EMA_fast']: ewm span 12, so a = 2/13 (macd). -/
def emaFastL (cs : List ℚ) : List ℚ := ewmL (2 / 13) cs

/-- df['EMA_slow']: ewm span 26, so a = 2/27 (macd). -/
def emaSlowL (cs : List ℚ) : List ℚ := ewmL (2 / 27) cs

/-- df['MACD'] = EMA_fast - EMA_slow (macd). -/
def macdL (cs : List ℚ) : List ℚ :=
  List.zipWith (fun a b => a - b) (emaFastL cs) (emaSlowL cs)

/-- df['Signal']: ewm span 9 of the MACD line, so a = 2/10 (macd). -/
def signalL (cs : List ℚ) : List ℚ := ewmL (2 / 10) (macdL cs)

/-- df['MACD_Hist'] = MACD - Signal (macd). -/
def histL (cs : List ℚ) : List ℚ :=
  List.zipWith (fun a b => a - b) (macdL cs) (signalL cs)

/-- True range per bar: max(high-low, |high-prev_close|, |low-prev_close|); at
the first bar the prev-close terms are NaN and the pandas row-wise max skips
them, leaving high-low (atr). -/
def trL (bars : List Bar) : List ℚ :=
  match bars with
  | [] => []
  | b :: rest =>
    (b.high - b.low) ::
      List.zipWith (fun prev cur =>
        max (cur.high - cur.low) (max |cur.high - prev.close| |cur.low - prev.close|))
        (b :: rest) rest

/-- df['ATR']: 14-bar rolling mean of the true range (atr). -/
def atrAt (bars : List Bar) (i : ℕ) : Option ℚ := rollingAt 14 meanQ ((trL bars).map some) i

/-- Loop body of obv: walk the (close, volume) pairs carrying the previous close
and the running total. -/
def obvGo (prevClose acc : ℚ) : List (ℚ × ℚ) → List ℚ
  | [] => []
  | (c, v) :: rest =>
    (if prevClose < c then acc + v else if c < prevClose then acc - v else acc) ::
      obvGo c (if prevClose < c then acc + v else if c < prevClose then acc - v else acc) rest

/-- df['OBV']: cumulative on-balance volume, first entry 0 (obv). -/
def obvL (cs vs : List ℚ) : List ℚ :=
  match cs.zip vs with
  | [] => []
  | (c, _) :: rest => 0 :: obvGo c 0 rest

/-- df['VolAvg']: 24-bar rolling mean of the volume (volume_spike). -/
def volAvgAt (vs : List ℚ) (i : ℕ) : Option ℚ := rollingAt 24 meanQ (vs.map some) i

/-- df['VolSpike'] = volume > 1.2 * VolAvg; a comparison against NaN is False
(volume_spike). -/
def volSpikeAt (vs : List ℚ) (i : ℕ) : Bool :=
  match volAvgAt vs i with
  | some a => decide (6 / 5 * a < vs.getD i 0)
  | none => false

/-- Row i of the enriched dataframe when every indicator is defined there; none
when pandas dropna removes the row.  The volume-average column (the longest
warm-up) is read first; dropna itself is order-independent. -/
def buildRow (bars : List Bar) (i : ℕ) : Option Row := do
  let cs := closeCol bars
  let vs := volCol bars
  let volAvgV ← volAvgAt vs i
  let smaV ← smaAt cs i
  let stdV ← stdAt cs i
  let upperV ← upperAt cs i
  let lowerV ← lowerAt cs i
  let bwV ← bwAt cs i
  let rsiV ← rsiAt cs i
  let atrV ← atrAt bars i
  let bar ← bars[i]?
  let macdV ← (macdL cs)[i]?
  let signalV ← (signalL cs)[i]?
  let histV ← (histL cs)[i]?
  let obvV ← (obvL cs vs)[i]?
  pure
    { openv := bar.openv, high := bar.high, low := bar.low
      close := bar.close, volume := bar.volume
      SMA := smaV, STD := stdV, UpperBand := upperV, LowerBand := lowerV
      BandWidth := bwV, RSI := rsiV
      MACD := macdV, Signal := signalV, MACD_Hist := histV
      ATR := atrV, OBV := obvV, VolAvg := volAvgV, VolSpike := volSpikeAt vs i }

/-- prepare_data: compute all indicator columns, then dropna().reset_index. -/
def prepare_data (bars : List Bar) : List Row :=
  (List.range bars.length).filterMap (buildRow bars)

/-- The two per-side confluence scores (score_long, score_short) of the latest
row, with the source's positional-indexing errors made explicit:
df.iloc[-1] on an empty frame and df['OBV'].iloc[-2] on a one-row frame raise
(calculate_confluence_score, scoring part). -/
def confluence_scores (df : List Row) : Except PyError (ℕ × ℕ) :=
  match df.getLast? with
  | none => .error .indexError
  | some row =>
    let b_long : ℕ := if row.close ≤ row.LowerBand ∧ row.BandWidth < 1 / 2 then 40 else 0
    let b_short : ℕ := if row.UpperBand ≤ row.close ∧ row.BandWidth < 1 / 2 then 40 else 0
    let r_long : ℕ := if row.RSI < 30 then 25 else 0
    let r_short : ℕ := if 70 < row.RSI then 25 else 0
    let m_pair : ℕ × ℕ :=
      if 2 ≤ df.length then
        match df.dropLast.getLast? with
        | some prev =>
          ((if prev.MACD < prev.Signal ∧ row.Signal < row.MACD ∧ 0 < row.MACD_Hist
              then 20 else 0),
           (if prev.Signal < prev.MACD ∧ row.MACD < row.Signal ∧ row.MACD_Hist < 0
              then 20 else 0))
        | none => (0, 0)
      else (0, 0)
    if row.VolSpike then
      match df.dropLast.getLast? with
      | none => .error .indexError
      | some prev =>
        .ok (b_long + r_long + m_pair.1 + (if prev.OBV < row.OBV then 15 else 0),
             b_short + r_short + m_pair.2 + (if row.OBV < prev.OBV then 15 else 0))
    else
      .ok (b_long + r_long + m_pair.1, b_short + r_short + m_pair.2)

/-- calculate_confluence_score: the per-side scores followed by the threshold
cascade of the source (85 long, 85 short, 60 long, 60 short, else no trade). -/
def calculate_confluence_score (df : List Row) : Except PyError (Sig × ℕ) :=
  (confluence_scores df).map fun p =>
    if 85 ≤ p.1 then (Sig.long, p.1)
    else if 85 ≤ p.2 then (Sig.short, p.2)
    else if 60 ≤ p.1 then (Sig.long, p.1)
    else if 60 ≤ p.2 then (Sig.short, p.2)
    else (Sig.noTrade, 0)

/-- calculate_position_size: leverage multiplier from the band width, zero ATR
short-circuits to zero. -/
def calculate_position_size (account_risk portfolio_value atr_val band_width : ℚ) : ℚ :=
  let leverage_multiplier : ℚ :=
    if band_width < 1 / 2 then 1
    else if 1 / 2 ≤ band_width ∧ band_width ≤ 3 / 2 then 3
    else 1 / 2
  if atr_val = 0 then 0
  else (account_risk * portfolio_value) / (atr_val * leverage_multiplier)

/-- calculate_trade_parameters: entry, stop loss and the two take-profit levels
from the latest row; for 'no trade' the source leaves them as None. -/
def calculate_trade_parameters (row : Row) (side : Sig) :
    ℚ × Option ℚ × Option ℚ × Option ℚ :=
  let entry := row.close
  let atr_val := row.ATR
  let sma := row.SMA
  match side with
  | .long =>
    (entry, some (max (row.LowerBand - 3 / 2 * atr_val) (entry * (49 / 50))),
      some sma, some row.UpperBand)
  | .short =>
    (entry, some (min (row.UpperBand + 3 / 2 * atr_val) (entry * (51 / 50))),
      some sma, some row.LowerBand)
  | .noTrade => (entry, none, none, none)

/-- The dictionary CryptoFuturesBot.analyze returns: a full trade record when a
signal fires, otherwise just the signal and confidence. -/
inductive TradeDetails
  | trade (signal : Sig) (confidence : ℕ) (entry : ℚ)
      (stop_loss tp1 tp2 : Option ℚ)
      (position_size band_width atr_val rsi_val : ℚ)
  | noTrade (confidence : ℕ)
deriving DecidableEq

/-- Signal carried by a TradeDetails record. -/
def TradeDetails.sigOf : TradeDetails → Sig
  | .trade s _ _ _ _ _ _ _ _ _ => s
  | .noTrade _ => Sig.noTrade

/-- Confidence carried by a TradeDetails record. -/
def TradeDetails.confOf : TradeDetails → ℕ
  | .trade _ c _ _ _ _ _ _ _ _ => c
  | .noTrade c => c

/-- CryptoFuturesBot.analyze: prepare_data, confluence scoring, position sizing
and trade parameters, sequenced exactly as in the source. -/
def analyze (account_risk portfolio_value : ℚ) (bars : List Bar) :
    Except PyError TradeDetails :=
  let df := prepare_data bars
  match calculate_confluence_score df with
  | .error e => .error e
  | .ok (signal, confidence) =>
    match df.getLast? with
    | none => .error .indexError
    | some latest =>
      let pos_size :=
        calculate_position_size account_risk portfolio_value latest.ATR latest.BandWidth
      match signal with
      | .noTrade => .ok (.noTrade confidence)
      | _ =>
        let p := calculate_trade_parameters latest signal
        .ok (.trade signal confidence p.1 p.2.1 p.2.2.1 p.2.2.2
              pos_size latest.BandWidth latest.ATR latest.RSI)

/-! Specification-side definitions used by refinement claims. -/

/-- Leverage multiplier exactly as the specification words it: 1 when the band
width is below 0.5, 3 when it is between 0.5 and 1.5 inclusive, 0.5 otherwise. -/
def leverage_multiplier_spec (band_width : ℚ) : ℚ :=
  if band_width < 1 / 2 then 1
  else if 1 / 2 ≤ band_width ∧ band_width ≤ 3 / 2 then 3
  else 1 / 2

/-- Position size exactly as the specification words it:
(account_risk * portfolio_value) / (ATR * leverage multiplier), and 0 when the
ATR is zero. -/
def position_size_spec (account_risk portfolio_value atr_val band_width : ℚ) : ℚ :=
  if atr_val = 0 then 0
  else (account_risk * portfolio_value) / (atr_val * leverage_multiplier_spec band_width)

/-- Decision cascade exactly as the specification words it: the 85 band is
checked first (long before short), then the 60 band (long before short),
otherwise no trade with confidence 0. -/
def decision_rule_spec (score_long score_short : ℕ) : Sig × ℕ :=
  if 85 ≤ score_long then (Sig.long, score_long)
  else if 85 ≤ score_short then (Sig.short, score_short)
  else if 60 ≤ score_long then (Sig.long, score_long)
  else if 60 ≤ score_short then (Sig.short, score_short)
  else (Sig.noTrade, 0)

/-- C3: the position size computed by the code equals
(account_risk * portfolio_value) / (ATR * leverage multiplier) with the
multiplier 1 / 3 / 0.5 chosen from the band width, and for ATR = 0 the result
is 0 for every account risk, portfolio value and band width. -/
theorem position_size_matches_spec (account_risk portfolio_value atr_val band_width : ℚ) :
    calculate_position_size account_risk portfolio_value atr_val band_width =
      position_size_spec account_risk portfolio_value atr_val band_width ∧
    calculate_position_size account_risk portfolio_value 0 band_width = 0 := by
  refine ⟨?_, ?_⟩
  · simp only [calculate_position_size, position_size_spec, leverage_multiplier_spec]
  · simp [calculate_position_size]

/-- C4: for every latest indicator row, the long side gets
entry = close, stop loss = max(lower band - 1.5*ATR, entry*0.98),
TP1 = middle band (SMA), TP2 = upper band, and the short side gets
entry = close, stop loss = min(upper band + 1.5*ATR, entry*1.02),
TP1 = middle band, TP2 = lower band. -/
theorem trade_parameters_formula (row : Row) :
    calculate_trade_parameters row Sig.long =
      (row.close, some (max (row.LowerBand - 3 / 2 * row.ATR) (row.close * (49 / 50))),
        some row.SMA, some row.UpperBand) ∧
    calculate_trade_parameters row Sig.short =
      (row.close, some (min (row.UpperBand + 3 / 2 * row.ATR) (row.close * (51 / 50))),
        some row.SMA, some row.LowerBand) :=
  ⟨rfl, rfl⟩

/-- C2: on any enriched frame whose scores are defined, the scorer's result is
exactly the specification's threshold cascade applied to (score_long,
score_short); in particular the 85-long branch is checked before the 85-short
branch. -/
theorem confluence_decision_rule (df : List Row) (sl ss : ℕ)
    (h : confluence_scores df = .ok (sl, ss)) :
    calculate_confluence_score df = .ok (decision_rule_spec sl ss) := by
  simp [calculate_confluence_score, h, Except.map, decision_rule_spec]

/-- A concrete enriched row for witnesses: degenerate flat values give
score_long 65 and score_short 40. -/
def rowW : Row :=
  { openv := 100, high := 100, low := 100, close := 100, volume := 10,
    SMA := 100, STD := 0, UpperBand := 100, LowerBand := 100, BandWidth := 0, RSI := 0,
    MACD := 0, Signal := 0, MACD_Hist := 0, ATR := 0, OBV := 0, VolAvg := 10,
    VolSpike := false }

/-- Witness for C2 at a concrete one-row frame with scores (65, 40). -/
theorem confluence_decision_rule_witness :
    calculate_confluence_score [rowW] = .ok (decision_rule_spec 65 40) :=
  confluence_decision_rule [rowW] 65 40 (by with_unfolding_all decide)

/-- All subset sums of the four weights 40, 25, 20 and 15. -/
def scoreSums : List ℕ := [0, 15, 20, 25, 35, 40, 45, 55, 60, 65, 75, 80, 85, 100]

set_option maxHeartbeats 1000000 in
/-- Every defined pair of per-side scores consists of subset sums of the four
condition weights. -/
lemma confluence_scores_mem (df : List Row) (sl ss : ℕ)
    (h : confluence_scores df = .ok (sl, ss)) :
    sl ∈ scoreSums ∧ ss ∈ scoreSums := by
  rcases hL : df.getLast? with _ | row
  · rw [confluence_scores, hL] at h; exact Except.noConfusion h
  · simp only [confluence_scores, hL] at h
    repeat' split at h
    all_goals
      first
      | exact Except.noConfusion h
      | (simp only [Except.ok.injEq, Prod.mk.injEq] at h
         rw [← h.1, ← h.2]
         exact ⟨by decide, by decide⟩)

/-- C8: each side's confluence score is at most 100 (the weights sum to
40+25+20+15), and the returned confidence is at most 100 as well. -/
theorem confluence_scores_bounded (df : List Row) (sl ss : ℕ) (sig : Sig) (conf : ℕ)
    (h1 : confluence_scores df = .ok (sl, ss))
    (h2 : calculate_confluence_score df = .ok (sig, conf)) :
    sl ≤ 100 ∧ ss ≤ 100 ∧ conf ≤ 100 := by
  obtain ⟨hsl, hss⟩ := confluence_scores_mem df sl ss h1
  have hb : ∀ x ∈ scoreSums, x ≤ 100 := by decide
  refine ⟨hb sl hsl, hb ss hss, ?_⟩
  rw [calculate_confluence_score, h1] at h2
  simp only [Except.map, Except.ok.injEq] at h2
  repeat' split at h2
  all_goals rw [Prod.mk.injEq] at h2
  all_goals obtain ⟨h3, h4⟩ := h2
  all_goals subst h4
  all_goals first
    | exact hb _ hsl
    | exact hb _ hss
    | decide

/-- Witness for C8: the one-row frame rowW has scores (65, 40) and result
(long, 65), all bounded by 100. -/
theorem confluence_scores_bounded_witness :
    (65 : ℕ) ≤ 100 ∧ (40 : ℕ) ≤ 100 ∧ (65 : ℕ) ≤ 100 :=
  confluence_scores_bounded [rowW] 65 40 Sig.long 65
    (by with_unfolding_all decide) (by with_unfolding_all decide)

/-- C10: whenever the scorer returns a direction other than no-trade, the
confidence is one of 60, 65, 75, 80, 85, 100 - the subset sums of the weights
that reach the 60 threshold. -/
theorem confidence_values (df : List Row) (sig : Sig) (conf : ℕ)
    (h : calculate_confluence_score df = .ok (sig, conf)) (hs : sig ≠ Sig.noTrade) :
    conf = 60 ∨ conf = 65 ∨ conf = 75 ∨ conf = 80 ∨ conf = 85 ∨ conf = 100 := by
  rcases hcs : confluence_scores df with e | p
  · rw [calculate_confluence_score, hcs] at h; exact Except.noConfusion h
  · obtain ⟨sl, ss⟩ := p
    obtain ⟨hsl, hss⟩ := confluence_scores_mem df sl ss hcs
    simp only [scoreSums, List.mem_cons, List.not_mem_nil, or_false] at hsl hss
    rw [calculate_confluence_score, hcs] at h
    simp only [Except.map, Except.ok.injEq] at h
    repeat' split at h
    all_goals rw [Prod.mk.injEq] at h
    all_goals obtain ⟨h3, h4⟩ := h
    all_goals subst h4
    all_goals subst h3
    all_goals first
      | exact absurd rfl hs
      | omega

/-- Witness for C10 at the one-row frame rowW: result (long, 65), and 65 is in
the allowed value set. -/
theorem confidence_values_witness :
    (65 : ℕ) = 60 ∨ (65 : ℕ) = 65 ∨ (65 : ℕ) = 75 ∨ (65 : ℕ) = 80 ∨
      (65 : ℕ) = 85 ∨ (65 : ℕ) = 100 :=
  confidence_values [rowW] Sig.long 65 (by with_unfolding_all decide) (by decide)

/-- An element drawn from a rolling window of an optional column is an element
of the column. -/
lemma mem_of_mem_window {xs : List (Option ℚ)} {i k : ℕ} {x : ℚ}
    (hx : x ∈ ((xs.take (i + 1)).drop k).filterMap id) : some x ∈ xs := by
  rcases List.mem_filterMap.mp hx with ⟨a, ha, hax⟩
  have hax2 : a = some x := hax
  subst hax2
  exact List.take_subset _ _ (List.drop_subset _ _ ha)

/-- A rolling mean over a nonnegative column is nonnegative. -/
lemma rollingAt_meanQ_nonneg {xs : List (Option ℚ)} {w i : ℕ} {g : ℚ}
    (hall : ∀ x : ℚ, some x ∈ xs → 0 ≤ x)
    (h : rollingAt w meanQ xs i = some g) : 0 ≤ g := by
  simp only [rollingAt] at h
  split at h
  · injection h with h2
    subst h2
    apply div_nonneg
    · exact List.sum_nonneg fun x hxw => hall x (mem_of_mem_window hxw)
    · exact Nat.cast_nonneg _
  · exact Option.noConfusion h

/-- Every defined entry of the gain column is nonnegative. -/
lemma gainL_nonneg (cs : List ℚ) (x : ℚ) (hx : some x ∈ gainL cs) : 0 ≤ x := by
  rcases List.mem_map.mp hx with ⟨o, ho, hox⟩
  cases o with
  | none => exact Option.noConfusion hox
  | some d =>
    injection hox with h2
    subst h2
    exact le_max_right d 0

/-- Every defined entry of the loss column is nonnegative. -/
lemma lossL_nonneg (cs : List ℚ) (x : ℚ) (hx : some x ∈ lossL cs) : 0 ≤ x := by
  rcases List.mem_map.mp hx with ⟨o, ho, hox⟩
  cases o with
  | none => exact Option.noConfusion hox
  | some d =>
    injection hox with h2
    subst h2
    exact le_max_right (-d) 0

/-- C7 (amended): every defined RSI value lies in [0, 100) - within the claimed
closed interval but strictly below 100 - and when the average loss is zero the
RSI equals 100 - 100 / (1 + avg_gain * 10^10), which approaches but never
reaches the claimed saturation value 100. -/
theorem rsi_bounds :
    (∀ (cs : List ℚ) (i : ℕ) (r : ℚ), rsiAt cs i = some r → 0 ≤ r ∧ r < 100) ∧
    (∀ (cs : List ℚ) (i : ℕ) (g : ℚ), avgGainAt cs i = some g → avgLossAt cs i = some 0 →
      rsiAt cs i = some (100 - 100 / (1 + g * 10 ^ 10))) := by
  constructor
  · intro cs i r h
    rcases hg : avgGainAt cs i with _ | g
    · simp [rsiAt, rsAt, omap2, hg] at h
    rcases hl : avgLossAt cs i with _ | lv
    · simp [rsiAt, rsAt, omap2, hg, hl] at h
    have hg0 : 0 ≤ g := rollingAt_meanQ_nonneg (gainL_nonneg cs) hg
    have hl0 : 0 ≤ lv := rollingAt_meanQ_nonneg (lossL_nonneg cs) hl
    have heps : (0 : ℚ) < epsQ := by norm_num [epsQ]
    have hrs0 : 0 ≤ g / (lv + epsQ) := div_nonneg hg0 (by linarith)
    simp [rsiAt, rsAt, omap2, hg, hl] at h
    have h1 : (0 : ℚ) < 1 + g / (lv + epsQ) := by linarith
    have h2 : 100 / (1 + g / (lv + epsQ)) ≤ 100 := div_le_self (by norm_num) (by linarith)
    have h3 : 0 < 100 / (1 + g / (lv + epsQ)) := div_pos (by norm_num) h1
    constructor <;> linarith [h.symm]
  · intro cs i g hg hl
    simp only [rsiAt, rsAt, omap2, hg, hl, epsQ, Option.map_some]
    norm_num
    rw [div_div_eq_mul_div, div_one, mul_comm]

/-- A strictly increasing 15-bar close series: all differences are +1, so the
14-bar average loss at the last bar is zero. -/
def cs15 : List ℚ :=
  [100, 101, 102, 103, 104, 105, 106, 107, 108, 109, 110, 111, 112, 113, 114]

/-- Witness for C7 at cs15: the RSI value at the last bar is in [0, 100), and
with average gain 1 and average loss 0 it equals 100 - 100 / (1 + 10^10). -/
theorem rsi_bounds_witness :
    (0 ≤ ((10 ^ 12 : ℚ) / (10 ^ 10 + 1)) ∧ ((10 ^ 12 : ℚ) / (10 ^ 10 + 1)) < 100) ∧
    rsiAt cs15 14 = some (100 - 100 / (1 + 1 * 10 ^ 10)) :=
  ⟨rsi_bounds.1 cs15 14 ((10 ^ 12 : ℚ) / (10 ^ 10 + 1)) (by with_unfolding_all rfl),
   rsi_bounds.2 cs15 14 1 (by with_unfolding_all rfl) (by with_unfolding_all rfl)⟩

/-- C7 counterexample: on the strictly increasing series cs15 the average loss
at the last bar is zero, yet the RSI there is 10^12 / (10^10 + 1), which is not
100 - the RSI does not saturate at 100. -/
theorem rsi_no_saturation_counterexample :
    avgLossAt cs15 14 = some 0 ∧
    rsiAt cs15 14 = some ((10 ^ 12 : ℚ) / (10 ^ 10 + 1)) ∧
    ((10 ^ 12 : ℚ) / (10 ^ 10 + 1)) ≠ 100 :=
  ⟨by with_unfolding_all rfl, by with_unfolding_all rfl, by with_unfolding_all decide⟩

/-- The downward scan natSqrtGo returns k on the perfect square k * k whenever
the scan starts at or above k. -/
lemma natSqrtGo_sq (k : ℕ) : ∀ m, k ≤ m → natSqrtGo (k * k) m = k := by
  intro m
  induction m with
  | zero =>
    intro hk
    have hk0 : k = 0 := by omega
    subst hk0
    rfl
  | succ m ih =>
    intro hk
    rcases Nat.eq_or_lt_of_le hk with he | hlt
    · subst he
      simp [natSqrtGo]
    · have hk2 : k ≤ m := by omega
      have h1 : k * k ≤ m * m := Nat.mul_le_mul hk2 hk2
      have hmul : ¬ ((m + 1) * (m + 1) ≤ k * k) := by nlinarith
      simp only [natSqrtGo, if_neg hmul]
      exact ih hk2

/-- natSqrt is exact on perfect squares. -/
lemma natSqrt_sq (k : ℕ) : natSqrt (k * k) = k := by
  apply natSqrtGo_sq
  nlinarith

/-- ratSqrt is exact on squares of nonnegative rationals. -/
lemma ratSqrt_sq (r : ℚ) (hr : 0 ≤ r) : ratSqrt (r ^ 2) = r := by
  rw [pow_two, ratSqrt, Rat.mul_self_num, Rat.mul_self_den]
  have hn : 0 ≤ r.num := Rat.num_nonneg.mpr hr
  obtain ⟨n, hn2⟩ := Int.eq_ofNat_of_zero_le hn
  rw [hn2]
  rw [show ((n : ℤ) * (n : ℤ)).toNat = n * n by omega]
  rw [natSqrt_sq, natSqrt_sq]
  rw [← hn2]
  exact Rat.mkRat_self r

/-- C5 (amended): on every complete 20-bar window the code's standard deviation
column is the sample standard deviation - the nonnegative root of the squared
deviations divided by 19 (ddof = 1), not by 20 - and the bands and band width
follow the claimed shape: upper = mean + 2*std, lower = mean - 2*std,
width = (upper - lower) / close * 100. -/
theorem bollinger_bands_sample_std (l : List ℚ) (r c : ℚ) (hl : l.length = 20)
    (hr : 0 ≤ r) (hvar : r ^ 2 = sampleVar l) :
    ratSqrt (sampleVar l) = r ∧
    sampleVar l * 19 = (l.map (fun x => (x - meanQ l) ^ 2)).sum ∧
    upperBandOf (meanQ l) r = meanQ l + 2 * r ∧
    lowerBandOf (meanQ l) r = meanQ l - 2 * r ∧
    bandWidthOf (upperBandOf (meanQ l) r) (lowerBandOf (meanQ l) r) c =
      4 * r / c * 100 := by
  refine ⟨?_, ?_, rfl, rfl, ?_⟩
  · rw [← hvar, ratSqrt_sq r hr]
  · rw [sampleVar, hl]
    norm_num
  · rw [bandWidthOf, upperBandOf, lowerBandOf]
    ring_nf

/-- A 20-bar close window with mean 100 whose deviations are 6, -6, 1, -1, 1,
-1 and fourteen zeros: the squared deviations sum to 76, so the sample variance
is 76 / 19 = 4 and the population variance is 76 / 20 = 19/5. -/
def w0 : List ℚ := [106, 94, 101, 99, 101, 99] ++ List.replicate 14 100

/-- Witness for C5 on the window w0 with sample standard deviation 2. -/
theorem bollinger_bands_sample_std_witness :
    ratSqrt (sampleVar w0) = 2 ∧
    sampleVar w0 * 19 = (w0.map (fun x => (x - meanQ w0) ^ 2)).sum ∧
    upperBandOf (meanQ w0) 2 = meanQ w0 + 2 * 2 ∧
    lowerBandOf (meanQ w0) 2 = meanQ w0 - 2 * 2 ∧
    bandWidthOf (upperBandOf (meanQ w0) 2) (lowerBandOf (meanQ w0) 2) 100 =
      4 * 2 / 100 * 100 :=
  bollinger_bands_sample_std w0 2 100 (by decide) (by norm_num)
    (by with_unfolding_all decide)

/-- C5 counterexample: on the window w0 the code's standard deviation is
exactly 2 (sample variance 4, upper band 104), while the population variance
the claim asks for is 19/5, whose square root is not 2 - the code's bands are
not built from the population standard deviation. -/
theorem bollinger_population_std_counterexample :
    ratSqrt (sampleVar w0) = 2 ∧ sampleVar w0 = 4 ∧ popVar w0 = 19 / 5 ∧
    upperBandOf (meanQ w0) (ratSqrt (sampleVar w0)) = 104 ∧
    ((2 : ℚ) ^ 2 ≠ popVar w0) := by
  with_unfolding_all decide

/-- The 24-bar volume-average column is undefined before index 23. -/
lemma volAvgAt_none_of_lt (vs : List ℚ) (i : ℕ) (hi : i < 23) :
    volAvgAt vs i = none := by
  simp only [volAvgAt, rollingAt]
  rw [if_neg]
  intro h
  omega

/-- Rows before index 23 are removed by dropna: the volume-average column is
still in its warm-up there. -/
lemma buildRow_none_of_lt (bars : List Bar) (i : ℕ) (hi : i < 23) :
    buildRow bars i = none := by
  rw [buildRow, volAvgAt_none_of_lt _ _ hi]
  rfl

/-- With fewer than 24 input bars, every enriched row still has a warm-up gap,
so dropna empties the frame. -/
lemma prepare_data_nil_of_short (bars : List Bar) (h : bars.length < 24) :
    prepare_data bars = [] := by
  rw [prepare_data]
  rw [List.filterMap_eq_nil_iff]
  intro i hi
  rw [List.mem_range] at hi
  exact buildRow_none_of_lt bars i (by omega)

/-- C1 (amended): for every input series with fewer than 24 bars every row is
dropped during warm-up, and analyze raises an IndexError (df.iloc[-1] on the
empty frame, modelled as an error result) instead of returning a no-trade
result with direction none and confidence 0; there is no two-valid-bars guard
in the code. -/
theorem short_series_raises (account_risk portfolio_value : ℚ) (bars : List Bar)
    (h : bars.length < 24) :
    analyze account_risk portfolio_value bars = .error PyError.indexError := by
  rw [analyze, prepare_data_nil_of_short bars h]
  rfl

/-- A one-bar input series. -/
def bars1 : List Bar := [⟨100, 100, 100, 100, 10⟩]

/-- Witness for C1 on the one-bar series. -/
theorem short_series_raises_witness :
    analyze (1 / 50) 100000 bars1 = .error PyError.indexError :=
  short_series_raises (1 / 50) 100000 bars1 (by decide)

/-- A five-bar input series, far below the 24-bar warm-up requirement. -/
def bars5 : List Bar :=
  [⟨100, 101, 99, 100, 10⟩, ⟨100, 102, 99, 101, 12⟩, ⟨101, 103, 100, 102, 9⟩,
   ⟨102, 104, 101, 103, 11⟩, ⟨103, 105, 102, 104, 10⟩]

/-- C1 counterexample: on a concrete five-bar input, analyze raises an
IndexError (df.iloc[-1] on the emptied frame) - it does not return a no-trade
result with direction none and confidence 0, and the pipeline does raise. -/
theorem short_series_counterexample :
    analyze (1 / 50) 100000 bars5 = .error PyError.indexError := by
  with_unfolding_all decide

/-- filterMap id over a replicated defined value keeps every entry. -/
lemma filterMap_id_replicate_some (k : ℕ) (x : ℚ) :
    (List.replicate k (some x)).filterMap id = List.replicate k x := by
  induction k with
  | zero => rfl
  | succ k ih => simp [List.replicate_succ, List.filterMap_cons, ih]

/-- The mean of a constant window is the constant. -/
lemma meanQ_replicate (w : ℕ) (x : ℚ) (hw : 0 < w) :
    meanQ (List.replicate w x) = x := by
  rw [meanQ, List.sum_replicate, List.length_replicate, nsmul_eq_mul]
  exact mul_div_cancel_left₀ x (Nat.cast_ne_zero.mpr (by omega))

/-- The sample variance of a constant window is zero. -/
lemma sampleVar_replicate (w : ℕ) (x : ℚ) (hw : 0 < w) :
    sampleVar (List.replicate w x) = 0 := by
  rw [sampleVar, meanQ_replicate w x hw, List.map_replicate]
  simp

/-- A rolling aggregation over a constant defined column: defined exactly once
the window is complete, with the aggregate of a constant window. -/
lemma rollingAt_replicate (w n : ℕ) (x : ℚ) (f : List ℚ → ℚ) (i : ℕ) (hi : i < n) :
    rollingAt w f (List.replicate n (some x)) i =
      if w ≤ i + 1 then some (f (List.replicate w x)) else none := by
  simp only [rollingAt, List.take_replicate, List.drop_replicate]
  by_cases hw : w ≤ i + 1
  · rw [show min (i + 1) n - (i + 1 - w) = w by omega]
    rw [filterMap_id_replicate_some, List.length_replicate]
    rw [if_pos ⟨hw, rfl⟩, if_pos hw]
  · rw [if_neg (fun hc => hw hc.1), if_neg hw]

/-- A rolling aggregation over a column whose head is arbitrary and whose tail
is constant, evaluated past the head. -/
lemma rollingAt_cons_replicate (w k : ℕ) (x : ℚ) (y : Option ℚ) (f : List ℚ → ℚ) (i : ℕ)
    (hw : 0 < w) (hwi : w ≤ i) (hik : i ≤ k) :
    rollingAt w f (y :: List.replicate k (some x)) i = some (f (List.replicate w x)) := by
  simp only [rollingAt, List.take_succ_cons, List.take_replicate]
  rw [show i + 1 - w = (i - w) + 1 by omega, List.drop_succ_cons, List.drop_replicate]
  rw [show min i k - (i - w) = w by omega]
  rw [filterMap_id_replicate_some, List.length_replicate]
  rw [if_pos ⟨by omega, rfl⟩]

/-- The EMA recurrence is stationary on a constant series. -/
lemma ewmGo_replicate (a x : ℚ) (k : ℕ) :
    ewmGo a x (List.replicate k x) = List.replicate k x := by
  induction k with
  | zero => rfl
  | succ k ih =>
    rw [List.replicate_succ, ewmGo]
    rw [show a * x + (1 - a) * x = x by ring]
    rw [ih, ← List.replicate_succ]

/-- The EMA of a constant series is that constant series. -/
lemma ewmL_replicate (a x : ℚ) (n : ℕ) :
    ewmL a (List.replicate n x) = List.replicate n x := by
  cases n with
  | zero => rfl
  | succ k =>
    rw [List.replicate_succ, ewmL, ewmGo_replicate, ← List.replicate_succ]

/-- zipWith over two replicated lists replicates the combined value. -/
lemma zipWith_replicate_min {α β γ : Type} (f : α → β → γ) (m k : ℕ) (a : α) (b : β) :
    List.zipWith f (List.replicate m a) (List.replicate k b) =
      List.replicate (min m k) (f a b) := by
  induction m generalizing k with
  | zero => simp
  | succ m ih =>
    cases k with
    | zero => simp
    | succ k =>
      simp only [List.replicate_succ, List.zipWith_cons_cons, ih, Nat.succ_min_succ]

/-- Differences of a constant series: NaN then zeros. -/
lemma diffL_replicate (k : ℕ) (x : ℚ) :
    diffL (List.replicate (k + 1) x) = none :: List.replicate k (some 0) := by
  rw [List.replicate_succ, diffL, List.tail_cons, ← List.replicate_succ]
  rw [zipWith_replicate_min]
  rw [show min (k + 1) k = k by omega, sub_self]

/-- Gains of a constant series: NaN then zeros. -/
lemma gainL_replicate (k : ℕ) (x : ℚ) :
    gainL (List.replicate (k + 1) x) = none :: List.replicate k (some 0) := by
  rw [gainL, diffL_replicate, List.map_cons, List.map_replicate]
  simp

/-- Losses of a constant series: NaN then zeros. -/
lemma lossL_replicate (k : ℕ) (x : ℚ) :
    lossL (List.replicate (k + 1) x) = none :: List.replicate k (some 0) := by
  rw [lossL, diffL_replicate, List.map_cons, List.map_replicate]
  simp

/-- The OBV loop stays at zero while the close does not move. -/
lemma obvGo_replicate (c v : ℚ) (k : ℕ) :
    obvGo c 0 (List.replicate k (c, v)) = List.replicate k 0 := by
  induction k with
  | zero => rfl
  | succ k ih =>
    rw [List.replicate_succ, obvGo]
    simp only [lt_irrefl, if_false]
    rw [ih, ← List.replicate_succ]

/-- The OBV of a constant series is identically zero. -/
lemma obvL_replicate (c v : ℚ) (n : ℕ) :
    obvL (List.replicate n c) (List.replicate n v) = List.replicate n 0 := by
  cases n with
  | zero => rfl
  | succ k =>
    rw [obvL]
    have hz : (List.replicate (k + 1) c).zip (List.replicate (k + 1) v) =
        (c, v) :: List.replicate k (c, v) := by
      rw [List.zip, zipWith_replicate_min, min_self, List.replicate_succ]
    rw [hz]
    show 0 :: obvGo c 0 (List.replicate k (c, v)) = List.replicate (k + 1) 0
    rw [obvGo_replicate, ← List.replicate_succ]

/-- The true range of a constant bar series. -/
lemma trL_replicate (b : Bar) (k : ℕ) :
    trL (List.replicate (k + 1) b) =
      (b.high - b.low) ::
        List.replicate k (max (b.high - b.low) (max |b.high - b.close| |b.low - b.close|)) := by
  rw [List.replicate_succ, trL, ← List.replicate_succ]
  rw [zipWith_replicate_min]
  rw [show min (k + 1) k = k by omega]

/-- The last element of a nonempty replicated row list. -/
lemma getLast?_replicate_row (n : ℕ) (x : Row) (hn : 0 < n) :
    (List.replicate n x).getLast? = some x := by
  induction n with
  | zero => omega
  | succ k ih =>
    cases k with
    | zero => rfl
    | succ j =>
      rw [List.replicate_succ, List.replicate_succ, List.getLast?_cons_cons,
        ← List.replicate_succ]
      exact ih (by omega)

/-- Dropping the last element of a replicated row list. -/
lemma dropLast_replicate_row (n : ℕ) (x : Row) :
    (List.replicate n x).dropLast = List.replicate (n - 1) x := by
  induction n with
  | zero => rfl
  | succ k ih =>
    cases k with
    | zero => rfl
    | succ j =>
      rw [List.replicate_succ, List.replicate_succ, List.dropLast_cons₂,
        ← List.replicate_succ, ih]
      rfl

/-- Filtering the indices at or above a threshold out of an initial segment. -/
lemma filterMap_ite_range (x : Row) (a : ℕ) : ∀ n : ℕ,
    (List.range n).filterMap (fun i => if a ≤ i then some x else none) =
      List.replicate (n - a) x := by
  intro n
  induction n with
  | zero => simp
  | succ n ih =>
    rw [List.range_succ, List.filterMap_append, ih]
    by_cases h : a ≤ n
    · rw [show (List.filterMap (fun i => if a ≤ i then some x else none) [n]) = [x] by
        simp [List.filterMap_cons, h]]
      rw [show n + 1 - a = (n - a) + 1 by omega, List.replicate_succ']
    · rw [show (List.filterMap (fun i => if a ≤ i then some x else none) [n]) = [] by
        simp [List.filterMap_cons, h]]
      rw [show n + 1 - a = 0 by omega, show n - a = 0 by omega]
      rfl

/-- The single enriched row every surviving index carries on a 40-bar flat series. -/
def flatRow (b : Bar) : Row :=
  { openv := b.openv, high := b.high, low := b.low, close := b.close, volume := b.volume,
    SMA := b.close, STD := 0, UpperBand := b.close, LowerBand := b.close, BandWidth := 0,
    RSI := 0, MACD := 0, Signal := 0, MACD_Hist := 0,
    ATR := max (b.high - b.low) (max |b.high - b.close| |b.low - b.close|),
    OBV := 0, VolAvg := b.volume,
    VolSpike := decide (6 / 5 * b.volume < b.volume) }

/-- On a 40-bar flat series every surviving index yields the same enriched row:
degenerate bands equal to the close, band width 0, RSI 0, MACD columns 0,
OBV 0. -/
lemma buildRow_flat (b : Bar) (i : ℕ) (h1 : 23 ≤ i) (h2 : i < 40) :
    buildRow (List.replicate 40 b) i = some (flatRow b) := by
  have hcs : closeCol (List.replicate 40 b) = List.replicate 40 b.close := by
    rw [closeCol, List.map_replicate]
  have hvs : volCol (List.replicate 40 b) = List.replicate 40 b.volume := by
    rw [volCol, List.map_replicate]
  have hva : volAvgAt (List.replicate 40 b.volume) i = some b.volume := by
    rw [volAvgAt, List.map_replicate, rollingAt_replicate 24 40 _ meanQ i (by omega),
      if_pos (by omega : 24 ≤ i + 1), meanQ_replicate _ _ (by omega)]
  have hsma : smaAt (List.replicate 40 b.close) i = some b.close := by
    rw [smaAt, List.map_replicate, rollingAt_replicate 20 40 _ meanQ i (by omega),
      if_pos (by omega : 20 ≤ i + 1), meanQ_replicate _ _ (by omega)]
  have hstd : stdAt (List.replicate 40 b.close) i = some 0 := by
    rw [stdAt, List.map_replicate, rollingAt_replicate 20 40 _ _ i (by omega),
      if_pos (by omega : 20 ≤ i + 1), sampleVar_replicate _ _ (by omega)]
    norm_num [show ratSqrt 0 = 0 by decide]
  have hup : upperAt (List.replicate 40 b.close) i = some b.close := by
    rw [upperAt, hsma, hstd]
    simp [omap2, upperBandOf]
  have hlow : lowerAt (List.replicate 40 b.close) i = some b.close := by
    rw [lowerAt, hsma, hstd]
    simp [omap2, lowerBandOf]
  have hbw : bwAt (List.replicate 40 b.close) i = some 0 := by
    rw [bwAt, hup, hlow]
    simp [omap2, bandWidthOf]
  have hgl : gainL (List.replicate 40 b.close) = none :: List.replicate 39 (some 0) :=
    gainL_replicate 39 b.close
  have hll : lossL (List.replicate 40 b.close) = none :: List.replicate 39 (some 0) :=
    lossL_replicate 39 b.close
  have hag : avgGainAt (List.replicate 40 b.close) i = some 0 := by
    rw [avgGainAt, hgl, rollingAt_cons_replicate 14 39 _ _ meanQ i (by omega) (by omega)
      (by omega), meanQ_replicate _ _ (by omega)]
  have hal : avgLossAt (List.replicate 40 b.close) i = some 0 := by
    rw [avgLossAt, hll, rollingAt_cons_replicate 14 39 _ _ meanQ i (by omega) (by omega)
      (by omega), meanQ_replicate _ _ (by omega)]
  have hrsi : rsiAt (List.replicate 40 b.close) i = some 0 := by
    rw [rsiAt, rsAt, hag, hal]
    simp [omap2]
  have hmacdL : macdL (List.replicate 40 b.close) = List.replicate 40 0 := by
    rw [macdL, emaFastL, emaSlowL, ewmL_replicate, ewmL_replicate, zipWith_replicate_min,
      min_self, sub_self]
  have hsigL : signalL (List.replicate 40 b.close) = List.replicate 40 0 := by
    rw [signalL, hmacdL, ewmL_replicate]
  have hhistL : histL (List.replicate 40 b.close) = List.replicate 40 0 := by
    rw [histL, hmacdL, hsigL, zipWith_replicate_min, min_self, sub_self]
  have htr : trL (List.replicate 40 b) =
      (b.high - b.low) ::
        List.replicate 39 (max (b.high - b.low) (max |b.high - b.close| |b.low - b.close|)) :=
    trL_replicate b 39
  have hatr : atrAt (List.replicate 40 b) i =
      some (max (b.high - b.low) (max |b.high - b.close| |b.low - b.close|)) := by
    rw [atrAt, htr, List.map_cons, List.map_replicate,
      rollingAt_cons_replicate 14 39 _ _ meanQ i (by omega) (by omega) (by omega),
      meanQ_replicate _ _ (by omega)]
  have hobvL : obvL (List.replicate 40 b.close) (List.replicate 40 b.volume) =
      List.replicate 40 0 := obvL_replicate b.close b.volume 40
  have hvsp : volSpikeAt (List.replicate 40 b.volume) i =
      decide (6 / 5 * b.volume < b.volume) := by
    rw [volSpikeAt, hva]
    have hgd : (List.replicate 40 b.volume).getD i 0 = b.volume := by
      rw [List.getD_eq_getElem?_getD, List.getElem?_replicate, if_pos h2]
      rfl
    rw [hgd]
  rw [buildRow]
  simp only [hcs, hvs, hva, hsma, hstd, hup, hlow, hbw, hrsi, hmacdL, hsigL, hhistL, hatr,
    hobvL, hvsp, List.getElem?_replicate, h2, if_true, Option.some_bind, flatRow]
  rfl

/-- prepare_data on a 40-bar flat series: the 17 post-warm-up rows survive,
all identical. -/
lemma prepare_data_flat (b : Bar) :
    prepare_data (List.replicate 40 b) = List.replicate 17 (flatRow b) := by
  rw [prepare_data, List.length_replicate]
  rw [List.filterMap_congr (g := fun i => if 23 ≤ i then some (flatRow b) else none) ?_]
  · rw [filterMap_ite_range]
  · intro i hi
    rw [List.mem_range] at hi
    show buildRow (List.replicate 40 b) i = if 23 ≤ i then some (flatRow b) else none
    by_cases h : 23 ≤ i
    · rw [buildRow_flat b i h hi, if_pos h]
    · rw [buildRow_none_of_lt _ _ (by omega), if_neg h]

/-- The scorer on the flat frame: the degenerate band touch (close equal to
both bands, width 0 below the 0.5 squeeze threshold, weight 40) and the RSI
0 < 30 oversold condition (weight 25) both fire for the long side, giving
score_long 65 and score_short 40, hence signal long with confidence 65. -/
lemma confluence_flat (b : Bar) :
    calculate_confluence_score (List.replicate 17 (flatRow b)) = .ok (Sig.long, 65) := by
  have hlast : (List.replicate 17 (flatRow b)).getLast? = some (flatRow b) :=
    getLast?_replicate_row 17 (flatRow b) (by omega)
  have hprev : (List.replicate 17 (flatRow b)).dropLast.getLast? = some (flatRow b) := by
    rw [dropLast_replicate_row]
    exact getLast?_replicate_row 16 (flatRow b) (by omega)
  rw [calculate_confluence_score, confluence_scores, hlast]
  simp only [List.length_replicate, hprev]
  simp [flatRow, Except.map]
  norm_num

/-- C6 (amended): every 40-bar flat series (identical bars, any close and
volume) yields direction LONG with confidence 65 - not direction none with
confidence 0 - and no operation raises: close = lower band with zero band
width scores 40 and RSI = 0 < 30 scores another 25 for the long side. -/
theorem flat_series_signals_long (o hb lb c v account_risk portfolio_value : ℚ) :
    (analyze account_risk portfolio_value (List.replicate 40 ⟨o, hb, lb, c, v⟩)).map
      (fun td => (td.sigOf, td.confOf)) = .ok (Sig.long, 65) := by
  have h1 := prepare_data_flat ⟨o, hb, lb, c, v⟩
  have h2 := confluence_flat ⟨o, hb, lb, c, v⟩
  have h3 : (List.replicate 17 (flatRow ⟨o, hb, lb, c, v⟩)).getLast? =
      some (flatRow ⟨o, hb, lb, c, v⟩) := getLast?_replicate_row 17 _ (by omega)
  simp only [analyze, h1, h2, h3]
  rfl

/-- A concrete 40-bar flat series: every bar is (100, 100, 100, 100, 10). -/
def flat40 : List Bar := List.replicate 40 ⟨100, 100, 100, 100, 10⟩

/-- C6 counterexample: on the concrete flat 40-bar series the pipeline returns
a long trade with confidence 65 (entry 100, degenerate stops and targets at
100, position size 0 because the ATR is 0), not a no-trade result with
confidence 0. -/
theorem flat_series_counterexample :
    analyze (1 / 50) 100000 flat40 =
      .ok (.trade Sig.long 65 100 (some 100) (some 100) (some 100) 0 0 0 0) := by
  with_unfolding_all decide

/-- The five columns bollinger_bands assigns into the frame. -/
structure BollCols where
  sma : List (Option ℚ)
  std : List (Option ℚ)
  upper : List (Option ℚ)
  lower : List (Option ℚ)
  bandwidth : List (Option ℚ)
deriving DecidableEq

/-- The five columns macd assigns into the frame. -/
structure MacdCols where
  emaFast : List ℚ
  emaSlow : List ℚ
  macdLine : List ℚ
  signalLine : List ℚ
  hist : List ℚ
deriving DecidableEq

/-- The two columns volume_spike assigns into the frame. -/
structure VolCols where
  volAvg : List (Option ℚ)
  volSpike : List Bool
deriving DecidableEq

/-- A Python dataframe object: its base OHLCV rows plus whichever indicator
column groups have been assigned into it in place so far (none = the column
does not exist yet). -/
structure PyFrame where
  base : List Bar
  boll : Option BollCols := none
  rsiCol : Option (List (Option ℚ)) := none
  macdCols : Option MacdCols := none
  atrCol : Option (List (Option ℚ)) := none
  obvCol : Option (List ℚ) := none
  volCols : Option VolCols := none
deriving DecidableEq

/-- The Bollinger columns computed from a series (bollinger_bands). -/
def bollColsOf (bars : List Bar) : BollCols :=
  { sma := (List.range bars.length).map (smaAt (closeCol bars))
    std := (List.range bars.length).map (stdAt (closeCol bars))
    upper := (List.range bars.length).map (upperAt (closeCol bars))
    lower := (List.range bars.length).map (lowerAt (closeCol bars))
    bandwidth := (List.range bars.length).map (bwAt (closeCol bars)) }

/-- The RSI column computed from a series (rsi). -/
def rsiColOf (bars : List Bar) : List (Option ℚ) :=
  (List.range bars.length).map (rsiAt (closeCol bars))

/-- The MACD columns computed from a series (macd). -/
def macdColsOf (bars : List Bar) : MacdCols :=
  { emaFast := emaFastL (closeCol bars)
    emaSlow := emaSlowL (closeCol bars)
    macdLine := macdL (closeCol bars)
    signalLine := signalL (closeCol bars)
    hist := histL (closeCol bars) }

/-- The ATR column computed from a series (atr). -/
def atrColOf (bars : List Bar) : List (Option ℚ) :=
  (List.range bars.length).map (atrAt bars)

/-- The OBV column computed from a series (obv). -/
def obvColOf (bars : List Bar) : List ℚ := obvL (closeCol bars) (volCol bars)

/-- The volume columns computed from a series (volume_spike). -/
def volColsOf (bars : List Bar) : VolCols :=
  { volAvg := (List.range bars.length).map (volAvgAt (volCol bars))
    volSpike := (List.range bars.length).map (volSpikeAt (volCol bars)) }


/-- bollinger_bands(df) at the object level: computes the band columns from
the frame the reference points at, assigns them into that same object, and
returns the caller's reference. -/
def bollinger_bandsM (st : List PyFrame) (r : ℕ) : List PyFrame × ℕ :=
  match st[r]? with
  | some f => (st.set r { f with boll := some (bollColsOf f.base) }, r)
  | none => (st, r)

/-- rsi(df) at the object level: assigns df['RSI'] in place. -/
def rsiM (st : List PyFrame) (r : ℕ) : List PyFrame × ℕ :=
  match st[r]? with
  | some f => (st.set r { f with rsiCol := some (rsiColOf f.base) }, r)
  | none => (st, r)

/-- macd(df) at the object level: assigns the MACD columns in place. -/
def macdM (st : List PyFrame) (r : ℕ) : List PyFrame × ℕ :=
  match st[r]? with
  | some f => (st.set r { f with macdCols := some (macdColsOf f.base) }, r)
  | none => (st, r)

/-- atr(df) at the object level: assigns df['ATR'] in place. -/
def atrM (st : List PyFrame) (r : ℕ) : List PyFrame × ℕ :=
  match st[r]? with
  | some f => (st.set r { f with atrCol := some (atrColOf f.base) }, r)
  | none => (st, r)

/-- obv(df) at the object level: assigns df['OBV'] in place. -/
def obvM (st : List PyFrame) (r : ℕ) : List PyFrame × ℕ :=
  match st[r]? with
  | some f => (st.set r { f with obvCol := some (obvColOf f.base) }, r)
  | none => (st, r)

/-- volume_spike(df) at the object level: assigns df['VolAvg'] and
df['VolSpike'] in place. -/
def volume_spikeM (st : List PyFrame) (r : ℕ) : List PyFrame × ℕ :=
  match st[r]? with
  | some f => (st.set r { f with volCols := some (volColsOf f.base) }, r)
  | none => (st, r)

/-- The caller's frame after all six in-place enrichment calls. -/
def enrichFrame (f : PyFrame) : PyFrame :=
  { f with
    boll := some (bollColsOf f.base)
    rsiCol := some (rsiColOf f.base)
    macdCols := some (macdColsOf f.base)
    atrCol := some (atrColOf f.base)
    obvCol := some (obvColOf f.base)
    volCols := some (volColsOf f.base) }

/-- Indices of the rows df.dropna() keeps. -/
def keptIdx (bars : List Bar) : List ℕ :=
  (List.range bars.length).filter (fun i => (buildRow bars i).isSome)

/-- Restrict a column to the surviving rows. -/
def keepRows {α : Type} (bars : List Bar) (xs : List α) : List α :=
  (keptIdx bars).filterMap (fun i => xs[i]?)

/-- The fresh frame df.dropna().reset_index(drop=True) allocates: every
column restricted to the surviving rows. -/
def droppedFrame (bars : List Bar) : PyFrame :=
  { base := keepRows bars bars
    boll := some
      { sma := keepRows bars (bollColsOf bars).sma
        std := keepRows bars (bollColsOf bars).std
        upper := keepRows bars (bollColsOf bars).upper
        lower := keepRows bars (bollColsOf bars).lower
        bandwidth := keepRows bars (bollColsOf bars).bandwidth }
    rsiCol := some (keepRows bars (rsiColOf bars))
    macdCols := some
      { emaFast := keepRows bars (macdColsOf bars).emaFast
        emaSlow := keepRows bars (macdColsOf bars).emaSlow
        macdLine := keepRows bars (macdColsOf bars).macdLine
        signalLine := keepRows bars (macdColsOf bars).signalLine
        hist := keepRows bars (macdColsOf bars).hist }
    atrCol := some (keepRows bars (atrColOf bars))
    obvCol := some (keepRows bars (obvColOf bars))
    volCols := some
      { volAvg := keepRows bars (volColsOf bars).volAvg
        volSpike := keepRows bars (volColsOf bars).volSpike } }

/-- dropna at the object level: allocates a fresh frame holding the surviving
rows and appends it to the store; the caller's object is untouched by this
step. -/
def dropnaM (st : List PyFrame) (r : ℕ) : List PyFrame × ℕ :=
  match st[r]? with
  | some f => (st ++ [droppedFrame f.base], st.length)
  | none => (st, r)

/-- prepare_data at the object level: six in-place enrichments of the frame
the caller passed, then dropna binding the local df name to a new object. -/
def prepare_dataM (st : List PyFrame) (r : ℕ) : List PyFrame × ℕ :=
  let p1 := bollinger_bandsM st r
  let p2 := rsiM p1.1 p1.2
  let p3 := macdM p2.1 p2.2
  let p4 := atrM p3.1 p3.2
  let p5 := obvM p4.1 p4.2
  let p6 := volume_spikeM p5.1 p5.2
  dropnaM p6.1 p6.2

set_option maxHeartbeats 4000000 in
/-- C9 (amended): prepare_data does NOT leave the caller's series unchanged:
after it runs, the object the caller passed has gained all six indicator
column groups (its rows are preserved), and only the dropna result is a fresh
object appended to the store. -/
theorem prepare_data_mutates_caller (st : List PyFrame) (r : ℕ) (f : PyFrame)
    (hr : st[r]? = some f) :
    ((prepare_dataM st r).1)[r]? = some (enrichFrame f) ∧
    (enrichFrame f).base = f.base ∧
    (prepare_dataM st r).2 = st.length ∧
    ((prepare_dataM st r).1)[(prepare_dataM st r).2]? =
      some (droppedFrame f.base) := by
  have hlen : r < st.length := (List.getElem?_eq_some_iff.mp hr).1
  set F1 : PyFrame := { f with boll := some (bollColsOf f.base) } with hF1
  have e1 : bollinger_bandsM st r = (st.set r F1, r) := by rw [bollinger_bandsM, hr]
  have hr1 : (st.set r F1)[r]? = some F1 :=
    List.getElem?_set_self (by simpa using hlen)
  set F2 : PyFrame := { F1 with rsiCol := some (rsiColOf F1.base) } with hF2
  have e2 : rsiM (st.set r F1) r = ((st.set r F1).set r F2, r) := by rw [rsiM, hr1]
  have hr2 : ((st.set r F1).set r F2)[r]? = some F2 :=
    List.getElem?_set_self (by simpa using hlen)
  set F3 : PyFrame := { F2 with macdCols := some (macdColsOf F2.base) } with hF3
  have e3 : macdM ((st.set r F1).set r F2) r =
      (((st.set r F1).set r F2).set r F3, r) := by rw [macdM, hr2]
  have hr3 : (((st.set r F1).set r F2).set r F3)[r]? = some F3 :=
    List.getElem?_set_self (by simpa using hlen)
  set F4 : PyFrame := { F3 with atrCol := some (atrColOf F3.base) } with hF4
  have e4 : atrM (((st.set r F1).set r F2).set r F3) r =
      ((((st.set r F1).set r F2).set r F3).set r F4, r) := by rw [atrM, hr3]
  have hr4 : ((((st.set r F1).set r F2).set r F3).set r F4)[r]? = some F4 :=
    List.getElem?_set_self (by simpa using hlen)
  set F5 : PyFrame := { F4 with obvCol := some (obvColOf F4.base) } with hF5
  have e5 : obvM ((((st.set r F1).set r F2).set r F3).set r F4) r =
      (((((st.set r F1).set r F2).set r F3).set r F4).set r F5, r) := by rw [obvM, hr4]
  have hr5 : (((((st.set r F1).set r F2).set r F3).set r F4).set r F5)[r]? = some F5 :=
    List.getElem?_set_self (by simpa using hlen)
  set F6 : PyFrame := { F5 with volCols := some (volColsOf F5.base) } with hF6
  have e6 : volume_spikeM (((((st.set r F1).set r F2).set r F3).set r F4).set r F5) r =
      ((((((st.set r F1).set r F2).set r F3).set r F4).set r F5).set r F6, r) := by
    rw [volume_spikeM, hr5]
  have hr6 : ((((((st.set r F1).set r F2).set r F3).set r F4).set r F5).set r F6)[r]? =
      some F6 := List.getElem?_set_self (by simpa using hlen)
  have e7 : dropnaM ((((((st.set r F1).set r F2).set r F3).set r F4).set r F5).set r F6) r =
      (((((((st.set r F1).set r F2).set r F3).set r F4).set r F5).set r F6) ++
          [droppedFrame F6.base],
        ((((((st.set r F1).set r F2).set r F3).set r F4).set r F5).set r F6).length) := by
    rw [dropnaM, hr6]
  have hP : prepare_dataM st r =
      (((((((st.set r F1).set r F2).set r F3).set r F4).set r F5).set r F6) ++
          [droppedFrame F6.base],
        ((((((st.set r F1).set r F2).set r F3).set r F4).set r F5).set r F6).length) := by
    rw [prepare_dataM]
    simp only [e1, e2, e3, e4, e5, e6, e7]
  rw [hP]
  refine ⟨?_, rfl, ?_, ?_⟩
  · rw [List.getElem?_append_left (by simpa using hlen), hr6]
    rfl
  · simp [List.length_set]
  · rw [List.getElem?_concat_length]

/-- The raw one-bar frame a caller would pass in: no indicator columns yet. -/
def rawFrame1 : PyFrame := { base := [⟨100, 100, 100, 100, 10⟩] }

/-- Witness for C9 at a concrete one-frame store. -/
theorem prepare_data_mutates_caller_witness :
    ((prepare_dataM [rawFrame1] 0).1)[0]? = some (enrichFrame rawFrame1) ∧
    (enrichFrame rawFrame1).base = rawFrame1.base ∧
    (prepare_dataM [rawFrame1] 0).2 = ([rawFrame1] : List PyFrame).length ∧
    ((prepare_dataM [rawFrame1] 0).1)[(prepare_dataM [rawFrame1] 0).2]? =
      some (droppedFrame rawFrame1.base) :=
  prepare_data_mutates_caller [rawFrame1] 0 rawFrame1 rfl

/-- C9 counterexample: after prepare_data runs on a store holding one raw
frame, the object at the caller's reference is no longer the frame the caller
passed in - the stage mutated state outside its own output. -/
theorem prepare_data_mutation_counterexample :
    ((prepare_dataM [rawFrame1] 0).1)[0]? ≠ some rawFrame1 := by
  with_unfolding_all decide
